import Mathlib

/-!
Verification of the ContinueSDK core (continuedev/src/continuedev/core/sdk.py):
a shallow embedding of the SDK facade, its host-IDE collaborator and the
history it reads, with theorems about path resolution, filesystem-edit
dispatch, configuration lookup, chat-context assembly, cached model
accessors and secret access.
-/

set_option linter.unusedVariables false

/-! ## Path primitives (Python `os.path` on POSIX) -/

/-- `os.path.isabs` on POSIX: a path is absolute when it begins with the
separator (`s.startswith('/')`, rendered over the character list so that it
evaluates inside the kernel). -/
def os_path_isabs (p : String) : Bool :=
  match p.data with
  | '/' :: _ => true
  | _ => false

/-- Whether a path's last character is the POSIX separator
(`path.endswith('/')`, rendered over the character list). -/
def ends_with_sep (p : String) : Bool :=
  match p.data.getLast? with
  | some '/' => true
  | _ => false

/-- `os.path.join(a, b)` on POSIX: `b` wins when absolute, otherwise it is
appended to `a` with a separator inserted unless `a` is empty or already ends
with one. -/
def os_path_join (a b : String) : String :=
  if os_path_isabs b then b
  else if a.data.isEmpty || ends_with_sep a then a ++ b
  else a ++ "/" ++ b

/-! ## Data model -/

/-- Modelled from the spec: the role of a chat message is one of an open set of
strings (enum {user, assistant, system, ...}); `ChatMessageRole` in
core/main.py is not under src/. -/
abbrev ChatMessageRole := String

/-- Modelled from the spec: `ChatMessage {content, role}` (core/main.py is not
under src/). -/
structure ChatMessage where
  content : String
  role : ChatMessageRole
deriving DecidableEq

/-- Modelled from the spec: a line/character span (models/main.py `Range` is
not under src/); its internals are never inspected by the SDK code verified
here. -/
structure Range where
  start : Nat × Nat
  stop : Nat × Nat
deriving DecidableEq

/-- Modelled from the spec: `RangeInFile {filepath, range}`, `range = none`
denoting the whole file (models/filesystem.py is not under src/). -/
structure RangeInFile where
  filepath : String
  range : Option Range
deriving DecidableEq

/-- Modelled from the spec: the tagged filesystem-edit variants
(models/filesystem_edit.py is not under src/). `FileEdit` carries the data the
append derivation supplies. -/
inductive FileSystemEdit where
  | AddFile (filepath : String) (content : Option String)
  | DeleteFile (filepath : String)
  | AddDirectory (path : String)
  | DeleteDirectory (path : String)
  | FileEdit (filepath : String) (previous_content : String) (appended : String)
deriving DecidableEq

/-- Modelled from the spec: `FileEdit.from_append(filepath, previous, content)`
derives a range-scoped append edit (models/filesystem_edit.py is not under
src/); represented by the data it is derived from. -/
def FileEdit.from_append (filepath previous_content content : String) : FileSystemEdit :=
  FileSystemEdit.FileEdit filepath previous_content content

/-- Modelled from the spec: the declarative configuration object
(core/config.py `ContinueConfig` is not under src/); parsing is an external
collaborator, so a loaded configuration is represented by where it was loaded
from, and `{}` is the default object `ContinueConfig()`. -/
structure ContinueConfig where
  loaded_from : Option String := none
deriving DecidableEq

/-- Modelled from the spec: the result value of executing a Step
(core/observation.py is not under src/); its content is irrelevant to the
properties verified here. -/
structure Observation where
  text : Option String := none
deriving DecidableEq

/-- Modelled from the spec: the Step variants the SDK facade constructs
(steps/core/core.py is not under src/), carrying the constructor arguments the
SDK passes. -/
inductive StepKind where
  | FileSystemEditStep (edit : FileSystemEdit)
  | ShellCommandsStep (cmds : List String) (cwd : Option String) (handle_error : Bool)
  | WaitForUserConfirmationStep (prompt : String)
  | Gpt35EditCodeStep (range_in_files : List RangeInFile) (user_input : String)
deriving DecidableEq

/-- Modelled from the spec: a Step's common attributes — optional name and
description, a hidden flag, and the mutable chat-context list (core/main.py is
not under src/). -/
structure Step where
  kind : StepKind
  name : Option String := none
  description : Option String := none
  hidden : Bool := false
  chat_context : List ChatMessage := []
deriving DecidableEq

/-- Modelled from the spec: a HistoryNode wraps one executed Step and its
Observation (core/main.py is not under src/). -/
structure HistoryNode where
  step : Step
  observation : Option Observation := none
deriving DecidableEq

/-- Modelled from the spec: the ordered timeline of HistoryNodes with the
current-index cursor (core/main.py is not under src/). -/
structure History where
  timeline : List HistoryNode
  current_index : Nat
deriving DecidableEq

/-- Modelled from the spec: `History.to_chat_history` derives the chat-style
transcript of the timeline (core/main.py is not under src/); the theorems
below depend only on it being some function of the History. -/
def History.to_chat_history (h : History) : List ChatMessage :=
  h.timeline.foldl (fun acc node => acc ++ node.step.chat_context) []

/-! ## Host IDE collaborator -/

/-- Modelled from the spec: the host IDE collaborator
(`AbstractIdeProtocolServer`, server/ide_protocol.py is not under src/): the
workspace root, file contents, stored secrets, currently highlighted ranges,
and a log of the filesystem edits applied through it. -/
structure IdeState where
  workspace_directory : String
  files : String → String
  secrets : String → String
  highlighted : List RangeInFile
  range_contents : RangeInFile → String
  applied_edits : List FileSystemEdit

def IdeState.getWorkspaceDirectory (ide : IdeState) : String :=
  ide.workspace_directory

def IdeState.readFile (ide : IdeState) (path : String) : String :=
  ide.files path

def IdeState.getUserSecret (ide : IdeState) (env_var : String) : String :=
  ide.secrets env_var

def IdeState.getHighlightedCode (ide : IdeState) : List RangeInFile :=
  ide.highlighted

def IdeState.readRangeInFile (ide : IdeState) (rif : RangeInFile) : String :=
  ide.range_contents rif

def IdeState.applyFileSystemEdit (ide : IdeState) (edit : FileSystemEdit) : IdeState :=
  { ide with applied_edits := ide.applied_edits ++ [edit] }

/-! ## Orchestrator state and the singular-step entry point -/

/-- The state the SDK facade acts on: the host IDE and the autopilot's
History. -/
structure SDKState where
  ide : IdeState
  history : History

/-- Modelled from the spec: executing a Step against the host. A
filesystem-edit Step applies its edit through the host's edit-application
interface (EditDispatcher); the other variants' host effects belong to
external collaborators and leave the modelled host state unchanged. -/
def Step.execute (ide : IdeState) (step : Step) : Observation × IdeState :=
  match step.kind with
  | StepKind.FileSystemEditStep edit => ({}, ide.applyFileSystemEdit edit)
  | _ => ({}, ide)

/-- Modelled from the spec: `Autopilot._run_singular_step` (core/autopilot.py
is not under src/): executes the step, appends one HistoryNode carrying the
step and its Observation, and advances `current_index` to the new last
position. -/
def Autopilot._run_singular_step (st : SDKState) (step : Step) : Observation × SDKState :=
  let (obs, ide1) := Step.execute st.ide step
  (obs,
    { ide := ide1
      history :=
        { timeline := st.history.timeline ++ [{ step := step, observation := some obs }]
          current_index := st.history.timeline.length } })

/-! ## The SDK facade (core/sdk.py) -/

def ContinueSDK._ensure_absolute_path (ide : IdeState) (path : String) : String :=
  if os_path_isabs path then path
  else os_path_join (IdeState.getWorkspaceDirectory ide) path

def ContinueSDK.run_step (st : SDKState) (step : Step) : Observation × SDKState :=
  Autopilot._run_singular_step st step

def ContinueSDK.apply_filesystem_edit (st : SDKState) (edit : FileSystemEdit)
    (name : Option String := none) (description : Option String := none) :
    Observation × SDKState :=
  ContinueSDK.run_step st
    { kind := StepKind.FileSystemEditStep edit, name := name, description := description }

def ContinueSDK.append_to_file (st : SDKState) (filename content : String) : SDKState :=
  let filepath := ContinueSDK._ensure_absolute_path st.ide filename
  let previous_content := st.ide.readFile filepath
  let file_edit := FileEdit.from_append filepath previous_content content
  { st with ide := st.ide.applyFileSystemEdit file_edit }

def ContinueSDK.add_file (st : SDKState) (filename : String) (content : Option String) :
    Observation × SDKState :=
  let filepath := ContinueSDK._ensure_absolute_path st.ide filename
  ContinueSDK.run_step st
    { kind := StepKind.FileSystemEditStep (FileSystemEdit.AddFile filepath content) }

def ContinueSDK.delete_file (st : SDKState) (filename : String) : Observation × SDKState :=
  let filepath := ContinueSDK._ensure_absolute_path st.ide filename
  ContinueSDK.run_step st
    { kind := StepKind.FileSystemEditStep (FileSystemEdit.DeleteFile filename) }

def ContinueSDK.add_directory (st : SDKState) (path : String) : Observation × SDKState :=
  let filepath := ContinueSDK._ensure_absolute_path st.ide path
  ContinueSDK.run_step st
    { kind := StepKind.FileSystemEditStep (FileSystemEdit.AddDirectory path) }

def ContinueSDK.delete_directory (st : SDKState) (path : String) : Observation × SDKState :=
  let filepath := ContinueSDK._ensure_absolute_path st.ide path
  ContinueSDK.run_step st
    { kind := StepKind.FileSystemEditStep (FileSystemEdit.DeleteDirectory path) }

def ContinueSDK.get_user_secret (ide : IdeState) (env_var : String) (prompt : String) : String :=
  IdeState.getUserSecret ide env_var

/-- The file-exists check and config-file loader the `config` property uses:
`os.path.exists` over the server's filesystem and `load_config` from
core/config.py (not under src/, an external collaborator per the spec). -/
structure ConfigFS where
  pathExists : String → Bool
  load_config : String → ContinueConfig

def ContinueSDK.config (fs : ConfigFS) (ide : IdeState) : ContinueConfig :=
  let dir := ide.workspace_directory
  let yaml_path := os_path_join (os_path_join dir ".continue") "config.yaml"
  let json_path := os_path_join (os_path_join dir ".continue") "config.json"
  if fs.pathExists yaml_path then fs.load_config yaml_path
  else if fs.pathExists json_path then fs.load_config json_path
  else {}

/-- Python errors the facade raises; `set_loading_message` raises
`NotImplementedError`. -/
inductive PyError where
  | NotImplementedError
deriving DecidableEq

def ContinueSDK.set_loading_message (message : String) : Except PyError Unit :=
  Except.error PyError.NotImplementedError

/-- `add_chat_context` indexes the timeline at `current_index` and appends a
ChatMessage to that node's step's chat context; `none` models the IndexError
Python raises when the index is out of range. The source's default role
argument is the literal string "assistent". -/
def ContinueSDK.add_chat_context (st : SDKState) (content : String)
    (role : ChatMessageRole := "assistent") : Option SDKState :=
  match st.history.timeline[st.history.current_index]? with
  | none => none
  | some node =>
    some { st with
      history := { st.history with
        timeline := st.history.timeline.set st.history.current_index
          { node with step := { node.step with
              chat_context := node.step.chat_context ++ [ChatMessage.mk content role] } } } }

def ContinueSDK.get_chat_context (st : SDKState) : List ChatMessage :=
  let history_context := st.history.to_chat_history
  let highlighted_code := st.ide.getHighlightedCode
  highlighted_code.foldl
    (fun acc rif =>
      let code := st.ide.readRangeInFile rif
      acc ++ [ChatMessage.mk s!"The following code is highlighted:\n```\n{code}\n```" "user"])
    history_context

/-! ## Lazy model accessors (class Models) -/

/-- The constructed LLM client resources: external collaborators
(libs/llm, not under src/), represented by the constructor arguments the
accessors pass. -/
inductive Resource where
  | HuggingFaceInferenceAPI (api_key : String)
  | OpenAI (api_key : String) (default_model : String)
deriving DecidableEq

/-- The per-instance cache `functools.cached_property` keeps for the two
accessors: absent until first access, then the constructed resource. -/
structure ModelsState where
  starcoder_cache : Option Resource := none
  gpt35_cache : Option Resource := none
deriving DecidableEq

/-- A fresh `Models` instance as `Models.__init__` builds it: no accessor has
run, both caches are empty. -/
def Models.init : ModelsState := {}

/-- `Models.starcoder` under `functools.cached_property`: a cache hit returns
the stored resource; otherwise the accessor drives the secret fetch to
completion, constructs the client, and stores it. The third component logs the
`env_var` of every `get_user_secret` call the access performs. -/
def Models.starcoder (ide : IdeState) (m : ModelsState) :
    Resource × ModelsState × List String :=
  match m.starcoder_cache with
  | some r => (r, m, [])
  | none =>
    let api_key := ContinueSDK.get_user_secret ide "HUGGING_FACE_TOKEN"
      "Please add your Hugging Face token to the .env file"
    let r := Resource.HuggingFaceInferenceAPI api_key
    (r, { m with starcoder_cache := some r }, ["HUGGING_FACE_TOKEN"])

/-- `Models.gpt35` under `functools.cached_property`, exactly as
`Models.starcoder` but for the OpenAI client. -/
def Models.gpt35 (ide : IdeState) (m : ModelsState) :
    Resource × ModelsState × List String :=
  match m.gpt35_cache with
  | some r => (r, m, [])
  | none =>
    let api_key := ContinueSDK.get_user_secret ide "OPENAI_API_KEY"
      "Please add your OpenAI API key to the .env file"
    let r := Resource.OpenAI api_key "gpt-3.5-turbo"
    (r, { m with gpt35_cache := some r }, ["OPENAI_API_KEY"])

/-! ## Concrete sample states for witnesses -/

def sampleIde : IdeState :=
  { workspace_directory := "/ws"
    files := fun _ => "old content"
    secrets := fun _ => "secret-value"
    highlighted := []
    range_contents := fun _ => ""
    applied_edits := [] }

def sampleStep : Step :=
  { kind := StepKind.ShellCommandsStep ["echo hi"] none true }

def sampleState1 : SDKState :=
  { ide := sampleIde
    history := { timeline := [{ step := sampleStep }], current_index := 0 } }

def fsYamlAndJson : ConfigFS :=
  { pathExists := fun p =>
      p == "/ws/.continue/config.yaml" || p == "/ws/.continue/config.json"
    load_config := fun p => { loaded_from := some p } }

def fsJsonOnly : ConfigFS :=
  { pathExists := fun p => p == "/ws/.continue/config.json"
    load_config := fun p => { loaded_from := some p } }

def fsNeither : ConfigFS :=
  { pathExists := fun _ => false
    load_config := fun p => { loaded_from := some p } }

/-! ## Helper lemmas -/

/-- Folding snoc over a list from an initial accumulator appends the mapped
list to the accumulator. -/
theorem foldl_snoc_eq_append_map {α β : Type} (f : α → β) (l : List α) (init : List β) :
    l.foldl (fun acc x => acc ++ [f x]) init = init ++ l.map f := by
  induction l generalizing init with
  | nil => simp
  | cons a t ih => simp [List.foldl_cons, ih, List.append_assoc]

/-! ## Claim theorems -/

/-- Claim C1 (code bug): on a history whose current node exists, calling
`add_chat_context` with the role omitted appends exactly one ChatMessage with
the given content — but its role is the source's misspelled literal
"assistent", which differs from the "assistant" the spec states. -/
theorem add_chat_context_default_role_is_assistent :
    (ContinueSDK.add_chat_context sampleState1 "hello").map
        (fun st => st.history.timeline.map fun n => n.step.chat_context)
      = some [[ChatMessage.mk "hello" "assistent"]] ∧
    (("assistent" : String) == "assistant") = false := by
  exact ⟨rfl, rfl⟩

/-- Claim C2: `delete_file` appends exactly one HistoryNode whose step is a
filesystem-edit Step carrying `DeleteFile` of the original `filename` argument
verbatim, and the edit applied through the host carries that same original
filename — even though an absolute resolution of it is computed. -/
theorem delete_file_edit_carries_original_filename (st : SDKState) (filename : String) :
    (ContinueSDK.delete_file st filename).2.history.timeline
      = st.history.timeline ++
          [{ step := { kind := StepKind.FileSystemEditStep (FileSystemEdit.DeleteFile filename) }
             observation := some {} }] ∧
    (ContinueSDK.delete_file st filename).2.ide.applied_edits
      = st.ide.applied_edits ++ [FileSystemEdit.DeleteFile filename] := by
  exact ⟨rfl, rfl⟩

/-- Claim C3: the `config` property checks the workspace's
`.continue/config.yaml` first and `.continue/config.json` second, loading the
first that exists — so YAML wins whenever it exists, JSON is loaded only when
YAML is absent, and the default `ContinueConfig` is returned when both are
absent. -/
theorem config_two_candidate_first_match (fs : ConfigFS) (ide : IdeState) :
    (fs.pathExists
        (os_path_join (os_path_join ide.workspace_directory ".continue") "config.yaml") = true →
      ContinueSDK.config fs ide
        = fs.load_config
            (os_path_join (os_path_join ide.workspace_directory ".continue") "config.yaml")) ∧
    (fs.pathExists
        (os_path_join (os_path_join ide.workspace_directory ".continue") "config.yaml") = false →
      fs.pathExists
        (os_path_join (os_path_join ide.workspace_directory ".continue") "config.json") = true →
      ContinueSDK.config fs ide
        = fs.load_config
            (os_path_join (os_path_join ide.workspace_directory ".continue") "config.json")) ∧
    (fs.pathExists
        (os_path_join (os_path_join ide.workspace_directory ".continue") "config.yaml") = false →
      fs.pathExists
        (os_path_join (os_path_join ide.workspace_directory ".continue") "config.json") = false →
      ContinueSDK.config fs ide = {}) := by
  refine ⟨fun hy => ?_, fun hy hj => ?_, fun hy hj => ?_⟩ <;>
    simp [ContinueSDK.config, hy]
  · simp [hj]
  · simp [hj]

/-- Claim C3 witness: with both files present YAML wins, with only JSON
present JSON is loaded, with neither present the default object is returned —
each at the concrete workspace root "/ws". -/
theorem config_two_candidate_first_match_witness :
    ContinueSDK.config fsYamlAndJson sampleIde
      = fsYamlAndJson.load_config "/ws/.continue/config.yaml" ∧
    ContinueSDK.config fsJsonOnly sampleIde
      = fsJsonOnly.load_config "/ws/.continue/config.json" ∧
    ContinueSDK.config fsNeither sampleIde = {} :=
  ⟨(config_two_candidate_first_match fsYamlAndJson sampleIde).1 (by decide),
   (config_two_candidate_first_match fsJsonOnly sampleIde).2.1 (by decide) (by decide),
   (config_two_candidate_first_match fsNeither sampleIde).2.2 (by decide) (by decide)⟩

/-- Claim C4: `_ensure_absolute_path` returns an absolute path unchanged and
joins a relative path onto the workspace root the host reports. -/
theorem ensure_absolute_path_cases (ide : IdeState) (path : String) :
    (os_path_isabs path = true → ContinueSDK._ensure_absolute_path ide path = path) ∧
    (os_path_isabs path = false →
      ContinueSDK._ensure_absolute_path ide path
        = os_path_join (IdeState.getWorkspaceDirectory ide) path) := by
  constructor <;> intro h <;> simp [ContinueSDK._ensure_absolute_path, h]

/-- Claim C4 witness: at the concrete workspace root "/ws", "/etc/hosts" is
returned unchanged and "notes.txt" resolves to "/ws/notes.txt". -/
theorem ensure_absolute_path_cases_witness :
    ContinueSDK._ensure_absolute_path sampleIde "/etc/hosts" = "/etc/hosts" ∧
    ContinueSDK._ensure_absolute_path sampleIde "notes.txt" = "/ws/notes.txt" :=
  ⟨(ensure_absolute_path_cases sampleIde "/etc/hosts").1 (by decide),
   ((ensure_absolute_path_cases sampleIde "notes.txt").2 (by decide)).trans (by decide)⟩

/-- Claim C5: `add_directory` and `delete_directory` each append one
HistoryNode whose filesystem-edit Step carries the `AddDirectory`
(resp. `DeleteDirectory`) variant with the original `path` argument exactly as
passed, unresolved, even though an absolute resolution of it is computed. -/
theorem directory_edits_carry_original_path (st : SDKState) (path : String) :
    (ContinueSDK.add_directory st path).2.history.timeline
      = st.history.timeline ++
          [{ step := { kind := StepKind.FileSystemEditStep (FileSystemEdit.AddDirectory path) }
             observation := some {} }] ∧
    (ContinueSDK.delete_directory st path).2.history.timeline
      = st.history.timeline ++
          [{ step :=
               { kind := StepKind.FileSystemEditStep (FileSystemEdit.DeleteDirectory path) }
             observation := some {} }] := by
  exact ⟨rfl, rfl⟩

/-- Claim C6: `get_chat_context` returns the History transcript first, then
exactly one user-role fenced-code message per highlighted range in host order;
with no highlighted ranges the result is exactly the transcript. -/
theorem get_chat_context_transcript_then_highlights (st : SDKState) :
    ContinueSDK.get_chat_context st
      = st.history.to_chat_history ++
          st.ide.getHighlightedCode.map (fun rif =>
            ChatMessage.mk
              s!"The following code is highlighted:\n```\n{st.ide.readRangeInFile rif}\n```"
              "user") ∧
    (st.ide.getHighlightedCode = [] →
      ContinueSDK.get_chat_context st = st.history.to_chat_history) := by
  have h := foldl_snoc_eq_append_map
    (fun rif =>
      ChatMessage.mk
        s!"The following code is highlighted:\n```\n{st.ide.readRangeInFile rif}\n```"
        "user")
    st.ide.getHighlightedCode st.history.to_chat_history
  refine ⟨h, fun hempty => ?_⟩
  simp [ContinueSDK.get_chat_context, hempty]

/-- Claim C6 witness: on a concrete state whose host reports no highlighted
ranges, the chat context equals the transcript exactly. -/
theorem get_chat_context_empty_highlights_witness :
    ContinueSDK.get_chat_context sampleState1 = sampleState1.history.to_chat_history :=
  (get_chat_context_transcript_then_highlights sampleState1).2 rfl

/-- Claim C7: on a fresh Models instance, accessing `starcoder` twice returns
the identical cached resource and performs exactly one secret fetch (for
HUGGING_FACE_TOKEN) across both accesses; likewise `gpt35` with exactly one
fetch of OPENAI_API_KEY. -/
theorem models_accessors_cached_once (ide : IdeState) :
    (Models.starcoder ide (Models.starcoder ide Models.init).2.1).1
      = (Models.starcoder ide Models.init).1 ∧
    (Models.starcoder ide Models.init).2.2
        ++ (Models.starcoder ide (Models.starcoder ide Models.init).2.1).2.2
      = ["HUGGING_FACE_TOKEN"] ∧
    (Models.gpt35 ide (Models.gpt35 ide Models.init).2.1).1
      = (Models.gpt35 ide Models.init).1 ∧
    (Models.gpt35 ide Models.init).2.2
        ++ (Models.gpt35 ide (Models.gpt35 ide Models.init).2.1).2.2
      = ["OPENAI_API_KEY"] := by
  exact ⟨rfl, rfl, rfl, rfl⟩

/-- Claim C8: `append_to_file` leaves the History untouched — no HistoryNode
is appended, `run_step` is never entered — and applies the derived append edit
directly through the host's edit-application interface. -/
theorem append_to_file_bypasses_history (st : SDKState) (filename content : String) :
    (ContinueSDK.append_to_file st filename content).history = st.history ∧
    (ContinueSDK.append_to_file st filename content).ide.applied_edits
      = st.ide.applied_edits ++
          [FileEdit.from_append
            (ContinueSDK._ensure_absolute_path st.ide filename)
            (st.ide.readFile (ContinueSDK._ensure_absolute_path st.ide filename))
            content] := by
  exact ⟨rfl, rfl⟩

/-- Claim C9: for every message, `set_loading_message` raises
NotImplementedError; it never returns successfully. -/
theorem set_loading_message_not_implemented (message : String) :
    ContinueSDK.set_loading_message message = Except.error PyError.NotImplementedError ∧
    ∀ u : Unit, ContinueSDK.set_loading_message message ≠ Except.ok u := by
  exact ⟨rfl, fun u h => by cases h⟩

/-- Claim C10: `get_user_secret` forwards only `env_var` to the host — two
calls with the same `env_var` and the same host state return the same result
whatever the prompt strings are. -/
theorem get_user_secret_ignores_prompt (ide : IdeState) (env_var p1 p2 : String) :
    ContinueSDK.get_user_secret ide env_var p1 = ContinueSDK.get_user_secret ide env_var p2 := by
  exact rfl
